import Mathlib

/-!
Shallow embedding of `src/healthcare_management_system.py` (the
Healthcare-management-System repository).

Modelling choices, kept uniform throughout:

* Python `dict` indexes become association lists `List (String × α)` with
  `dictGet` (lookup of the first matching key), `dictSet` (in-place update of
  an existing key, else append — Python dict assignment semantics) and
  `dictErase` (Python `del`).
* Python objects are shared mutable references: the registry's
  `self.appointments` dict and the per-user lists (`doctor.appointments`,
  `patient.appointments`, `patient.medical_history`, ...) alias the same
  objects.  The pure rendering stores the canonical entity in the registry
  index and lets the per-user lists hold the entity ids; reading a per-user
  list dereferences through the registry index.  Mutating an entity through
  any alias is then a single update of the registry index.
* `datetime` values become `Int` instants; the only operations the source
  performs on them are equality (scheduling conflicts) and order
  (`datetime.now() > due_date`).  The current time `datetime.now()` becomes an
  explicit `now : Int` argument of the operations that read the clock.
* Python `float` money amounts become exact rationals `Rat`.
* `uuid.uuid4()` generated identifiers become explicit `String` arguments; a
  freshly generated uuid never collides with any identifier already in the
  system, which the step relation states as explicit freshness hypotheses.
* A raised exception becomes `Except.error`; the exception classes of the
  source become the constructors of `HError`, carrying the message string.
-/

/-- Python `dict.get`: first binding of the key, if any. -/
def dictGet {α : Type} (l : List (String × α)) (k : String) : Option α :=
  match l with
  | [] => none
  | (k', v) :: rest => if k' = k then some v else dictGet rest k

/-- Python `d[k] = v`: replace the binding in place if the key is present,
else append the new binding (insertion order is preserved). -/
def dictSet {α : Type} (l : List (String × α)) (k : String) (v : α) :
    List (String × α) :=
  match l with
  | [] => [(k, v)]
  | (k', v') :: rest =>
    if k' = k then (k, v) :: rest else (k', v') :: dictSet rest k v

/-- Python `del d[k]`: remove the binding of the key. -/
def dictErase {α : Type} (l : List (String × α)) (k : String) :
    List (String × α) :=
  match l with
  | [] => []
  | (k', v') :: rest =>
    if k' = k then dictErase rest k else (k', v') :: dictErase rest k

/-- Python `set.add`: membership-preserving insert (source: `Doctor.patients`). -/
def setAdd (l : List String) (x : String) : List String :=
  if x ∈ l then l else l ++ [x]

/-- The exception classes of the source, with their message. -/
inductive HError : Type
  | authenticationError (msg : String)
  | authorizationError (msg : String)
  | schedulingConflictError (msg : String)
  | billingError (msg : String)
  | recordNotFoundError (msg : String)
deriving DecidableEq

/-- Source `hash_password`.  The sha256 hex digest is modelled as an abstract
injective tag on the password string; no claim inspects digests, the stored
value is only ever compared for equality (authentication, outside the claims). -/
def hash_password (password : String) : String :=
  "sha256:" ++ password

/-- Source class `Medication`. -/
structure Medication : Type where
  medication_id : String
  name : String
  dosage : String
  frequency : String
  duration : String
deriving DecidableEq

/-- Source class `Prescription` (`date_issued` is the creation instant). -/
structure Prescription : Type where
  prescription_id : String
  patient_id : String
  doctor_id : String
  medications : List Medication
  date_issued : Int
  instructions : String
deriving DecidableEq

/-- Source class `MedicalRecord`.  Its `prescriptions` list owns the attached
prescription values (the registry's prescription index holds the same values,
and the surface never mutates a prescription after insertion). -/
structure MedicalRecord : Type where
  record_id : String
  patient_id : String
  doctor_id : String
  date : Int
  diagnosis : String
  treatment : String
  prescriptions : List Prescription
  notes : String
deriving DecidableEq

/-- Source class `Billing`. -/
structure Billing : Type where
  billing_id : String
  patient_id : String
  amount_due : Rat
  due_date : Int
  status : String
  description : String
deriving DecidableEq

/-- Source class `Appointment`. -/
structure Appointment : Type where
  appointment_id : String
  patient_id : String
  doctor_id : String
  date_time : Int
  status : String
  notes : String
deriving DecidableEq

/-- Source class `Patient` (role `"Patient"`); the three reference lists hold
ids of registry-owned entities (see the aliasing note above). -/
structure PatientData : Type where
  user_id : String
  name : String
  email : String
  password : String
  medical_history : List String
  appointments : List String
  billing_info : List String
  insurance_details : List (String × String)
deriving DecidableEq

/-- Source class `Doctor` (role `"Doctor"`); `patients` is the treated-patient
set, `schedule` is declared in the source but never read or written. -/
structure DoctorData : Type where
  user_id : String
  name : String
  email : String
  password : String
  specialization : String
  appointments : List String
  patients : List String
  schedule : List Int
deriving DecidableEq

/-- Source class `Administrator` (role `"Administrator"`). -/
structure AdminData : Type where
  user_id : String
  name : String
  email : String
  password : String
deriving DecidableEq

/-- The closed set of `User` subclasses of the source. -/
inductive User : Type
  | patient (p : PatientData)
  | doctor (d : DoctorData)
  | admin (a : AdminData)
deriving DecidableEq

/-- Attribute `user_id` of the common `User` base class. -/
def User.user_id : User → String
  | .patient p => p.user_id
  | .doctor d => d.user_id
  | .admin a => a.user_id

/-- Attribute `email` of the common `User` base class. -/
def User.email : User → String
  | .patient p => p.email
  | .doctor d => d.email
  | .admin a => a.email

/-- The `role` tag set by each subclass constructor. -/
def User.role : User → String
  | .patient _ => "Patient"
  | .doctor _ => "Doctor"
  | .admin _ => "Administrator"

/-- Constructor `Patient.__init__` (fresh lists, hashed password). -/
def mkPatient (name email password : String)
    (insurance_details : List (String × String)) (user_id : String) : User :=
  .patient
    { user_id := user_id, name := name, email := email,
      password := hash_password password,
      medical_history := [], appointments := [], billing_info := [],
      insurance_details := insurance_details }

/-- Constructor `Doctor.__init__` (fresh lists and sets, hashed password). -/
def mkDoctor (name email password specialization user_id : String) : User :=
  .doctor
    { user_id := user_id, name := name, email := email,
      password := hash_password password, specialization := specialization,
      appointments := [], patients := [], schedule := [] }

/-- Constructor `Administrator.__init__`. -/
def mkAdministrator (name email password user_id : String) : User :=
  .admin
    { user_id := user_id, name := name, email := email,
      password := hash_password password }

/-- Source class `HealthcareSystem`: the registry with its keyed indexes.
The `reports` index is omitted: reports are immutable rendered-text snapshots
that no claim (and no other operation) reads back. -/
structure HealthcareSystem : Type where
  users : List (String × User)
  users_by_email : List (String × String)
  appointments : List (String × Appointment)
  medical_records : List (String × MedicalRecord)
  prescriptions : List (String × Prescription)
  billings : List (String × Billing)
deriving DecidableEq

/-- The state at process start (`HealthcareSystem.__init__`). -/
def emptySystem : HealthcareSystem :=
  { users := [], users_by_email := [], appointments := [],
    medical_records := [], prescriptions := [], billings := [] }

/-- Source `HealthcareSystem.register_user` (the email index stores the id of
the user object it aliases). -/
def register_user (s : HealthcareSystem) (user : User) :
    Except HError HealthcareSystem :=
  if (dictGet s.users_by_email user.email).isSome then
    .error (.authenticationError "User already exists with this email.")
  else
    .ok { s with
      users := dictSet s.users user.user_id user,
      users_by_email := dictSet s.users_by_email user.email user.user_id }

/-- Source `HealthcareSystem.remove_user`. -/
def remove_user (s : HealthcareSystem) (user_id : String) :
    Except HError HealthcareSystem :=
  match dictGet s.users user_id with
  | none => .error (.recordNotFoundError "User not found.")
  | some user =>
    .ok { s with
      users := dictErase s.users user_id,
      users_by_email := dictErase s.users_by_email user.email }

/-- The conflict scan of `schedule_appointment` / `reschedule_appointment`:
`any(appt.date_time == appointment_time and appt.status == "Scheduled"
for appt in doctor.appointments)` — the doctor's entries dereferenced through
the registry index. -/
def doctorConflict (s : HealthcareSystem) (d : DoctorData) (t : Int) : Bool :=
  d.appointments.any fun aid =>
    match dictGet s.appointments aid with
    | some appt => decide (appt.date_time = t) && decide (appt.status = "Scheduled")
    | none => false

/-- Source `HealthcareSystem.schedule_appointment`; `appointment_id` stands
for the uuid4 value generated (or explicitly supplied) for the new
appointment. -/
def schedule_appointment (s : HealthcareSystem)
    (patient_id doctor_id : String) (appointment_time : Int)
    (appointment_id : String) :
    Except HError (HealthcareSystem × Appointment) :=
  match dictGet s.users patient_id, dictGet s.users doctor_id with
  | some (.patient p), some (.doctor d) =>
    if doctorConflict s d appointment_time then
      .error (.schedulingConflictError "Doctor is not available at this time.")
    else
      let appointment : Appointment :=
        { appointment_id := appointment_id, patient_id := patient_id,
          doctor_id := doctor_id, date_time := appointment_time,
          status := "Scheduled", notes := "" }
      .ok
        ({ s with
            appointments := dictSet s.appointments appointment_id appointment,
            users := dictSet
              (dictSet s.users doctor_id
                (.doctor { d with
                  appointments := d.appointments ++ [appointment_id],
                  patients := setAdd d.patients patient_id }))
              patient_id
              (.patient { p with
                appointments := p.appointments ++ [appointment_id] }) },
         appointment)
  | _, _ => .error (.recordNotFoundError "Invalid patient or doctor ID.")

/-- Source `HealthcareSystem.cancel_appointment`. -/
def cancel_appointment (s : HealthcareSystem) (appointment_id : String) :
    Except HError HealthcareSystem :=
  match dictGet s.appointments appointment_id with
  | none => .error (.recordNotFoundError "Appointment not found.")
  | some appointment =>
    .ok { s with
      appointments := dictSet s.appointments appointment_id
        { appointment with status := "Cancelled" } }

/-- Source `HealthcareSystem.reschedule_appointment`. -/
def reschedule_appointment (s : HealthcareSystem) (appointment_id : String)
    (new_time : Int) : Except HError HealthcareSystem :=
  match dictGet s.appointments appointment_id with
  | none => .error (.recordNotFoundError "Appointment not found.")
  | some appointment =>
    match dictGet s.users appointment.doctor_id with
    | some (.doctor d) =>
      if doctorConflict s d new_time then
        .error (.schedulingConflictError "Doctor is not available at the new time.")
      else
        .ok { s with
          appointments := dictSet s.appointments appointment_id
            { appointment with date_time := new_time } }
    | _ => .error (.recordNotFoundError "Doctor not found.")

/-- The loop body of `Doctor.confirm_appointment`: walk the doctor's
appointment list; at the first entry with the requested id, confirm it if it
is `Scheduled`, else only report; report not-found if the walk ends.  The
returned string is the message the source prints.  (The id-list entry is
dereferenced through the registry index; a dangling id cannot arise in the
source, where the list holds the objects themselves, and the dereference
failure case reports not-found.) -/
def confirmLoop (s : HealthcareSystem) (aids : List String)
    (appointment_id : String) : HealthcareSystem × String :=
  match aids with
  | [] => (s, "Appointment " ++ appointment_id ++ " not found.")
  | aid :: rest =>
    if aid = appointment_id then
      match dictGet s.appointments aid with
      | some appt =>
        if appt.status = "Scheduled" then
          let confirmed : Appointment := { appt with status := "Confirmed" }
          ({ s with appointments := dictSet s.appointments aid confirmed },
           "Appointment " ++ appointment_id ++ " has been confirmed.")
        else
          (s, "Appointment " ++ appointment_id ++
            " cannot be confirmed as it is " ++ appt.status ++ ".")
      | none => (s, "Appointment " ++ appointment_id ++ " not found.")
    else confirmLoop s rest appointment_id

/-- Source `Doctor.confirm_appointment` for a doctor `d` of the registry:
never fails, returns the new registry state and the printed message. -/
def confirm_appointment (s : HealthcareSystem) (d : DoctorData)
    (appointment_id : String) : HealthcareSystem × String :=
  confirmLoop s d.appointments appointment_id

/-- Source `HealthcareSystem.add_medical_record`; the record id stands for the
uuid4 generated at `MedicalRecord.__init__`. -/
def add_medical_record (s : HealthcareSystem) (patient_id : String)
    (record : MedicalRecord) : Except HError HealthcareSystem :=
  match dictGet s.users patient_id with
  | some (.patient p) =>
    .ok { s with
      medical_records := dictSet s.medical_records record.record_id record,
      users := dictSet s.users patient_id
        (.patient { p with
          medical_history := p.medical_history ++ [record.record_id] }) }
  | _ => .error (.recordNotFoundError "Patient not found.")

/-- Source `HealthcareSystem.get_medical_records`: the patient's history,
dereferenced through the registry index. -/
def get_medical_records (s : HealthcareSystem) (patient_id : String) :
    Except HError (List MedicalRecord) :=
  match dictGet s.users patient_id with
  | some (.patient p) =>
    .ok (p.medical_history.filterMap (dictGet s.medical_records))
  | _ => .error (.recordNotFoundError "Patient not found.")

/-- Source `HealthcareSystem.add_prescription`: index the prescription, then
attach it to the most recently added medical record of the patient, if any. -/
def add_prescription (s : HealthcareSystem) (patient_id : String)
    (prescription : Prescription) : Except HError HealthcareSystem :=
  match dictGet s.users patient_id with
  | some (.patient p) =>
    match p.medical_history.getLast? with
    | some rid =>
      match dictGet s.medical_records rid with
      | some latest_record =>
        .ok { s with
          prescriptions := dictSet s.prescriptions
            prescription.prescription_id prescription,
          medical_records := dictSet s.medical_records rid
            { latest_record with
              prescriptions := latest_record.prescriptions ++ [prescription] } }
      | none =>
        .ok { s with
          prescriptions := dictSet s.prescriptions
            prescription.prescription_id prescription }
    | none =>
      .ok { s with
        prescriptions := dictSet s.prescriptions
          prescription.prescription_id prescription }
  | _ => .error (.recordNotFoundError "Patient not found.")

/-- Source `HealthcareSystem.get_prescriptions`: concatenation of the
prescription lists of the patient's records, in history order. -/
def get_prescriptions (s : HealthcareSystem) (patient_id : String) :
    Except HError (List Prescription) :=
  match dictGet s.users patient_id with
  | some (.patient p) =>
    .ok ((p.medical_history.filterMap (dictGet s.medical_records)).flatMap
      (fun record => record.prescriptions))
  | _ => .error (.recordNotFoundError "Patient not found.")

/-- Source `Patient.view_prescriptions`: the same aggregation, read from the
patient's own history references. -/
def view_prescriptions (s : HealthcareSystem) (p : PatientData) :
    List Prescription :=
  (p.medical_history.filterMap (dictGet s.medical_records)).flatMap
    (fun record => record.prescriptions)

/-- The 30-day grace the source adds to the creation instant
(`timedelta(days=30)`), in the abstract time unit. -/
def thirtyDays : Int := 30

/-- Source `HealthcareSystem.create_billing`; `now` is the creation instant,
`billing_id` the uuid4 generated at `Billing.__init__`. -/
def create_billing (s : HealthcareSystem) (now : Int) (patient_id : String)
    (amount_due : Rat) (description : String) (billing_id : String) :
    Except HError (HealthcareSystem × Billing) :=
  match dictGet s.users patient_id with
  | some (.patient p) =>
    let billing : Billing :=
      { billing_id := billing_id, patient_id := patient_id,
        amount_due := amount_due, due_date := now + thirtyDays,
        status := "Unpaid", description := description }
    .ok
      ({ s with
          billings := dictSet s.billings billing_id billing,
          users := dictSet s.users patient_id
            (.patient { p with
              billing_info := p.billing_info ++ [billing_id] }) },
       billing)
  | _ => .error (.recordNotFoundError "Patient not found.")

/-- Source `Billing.apply_payment` (`now` is the instant `datetime.now()`
read inside the partial-payment branch). -/
def Billing.apply_payment (b : Billing) (now : Int) (amount : Rat) :
    Except HError Billing :=
  if amount ≤ 0 then
    .error (.billingError "Payment amount must be positive.")
  else if amount ≥ b.amount_due then
    .ok { b with status := "Paid", amount_due := 0 }
  else if 0 < amount ∧ amount < b.amount_due then
    .ok { b with
      amount_due := b.amount_due - amount,
      status := if now > b.due_date then "Overdue" else b.status }
  else
    .error (.billingError "Invalid payment amount.")

/-- Source `HealthcareSystem.process_payment`. -/
def process_payment (s : HealthcareSystem) (now : Int) (billing_id : String)
    (amount : Rat) : Except HError HealthcareSystem :=
  match dictGet s.billings billing_id with
  | none => .error (.billingError "Billing record not found.")
  | some billing =>
    match billing.apply_payment now amount with
    | .error e => .error e
    | .ok b =>
      .ok { s with billings := dictSet s.billings billing_id b }

/-- Source `HealthcareSystem.access_medical_records`.  The source first checks
membership of the requester's role in the three known roles — always true for
the closed `User` type — then the patient self-access rule, then the doctor
treated-set rule. -/
def access_medical_records (s : HealthcareSystem) (requester : User)
    (patient_id : String) : Except HError (List MedicalRecord) :=
  match requester with
  | .patient p =>
    if p.user_id ≠ patient_id then
      .error (.authorizationError "Patients can only access their own medical records.")
    else get_medical_records s patient_id
  | .doctor d =>
    if patient_id ∈ d.patients then get_medical_records s patient_id
    else .error (.authorizationError "Doctor not assigned to this patient.")
  | .admin _ => get_medical_records s patient_id

/-- A uuid4-generated user id: it collides neither with a registered user nor
with any id already referenced by an appointment. -/
def FreshUserId (s : HealthcareSystem) (uid : String) : Prop :=
  dictGet s.users uid = none ∧
  ∀ k a, dictGet s.appointments k = some a →
    a.doctor_id ≠ uid ∧ a.patient_id ≠ uid

/-- One mutating operation of the registry surface, with the uuid-freshness
side conditions of generated identifiers made explicit.  Read-only operations
(`authenticate_user`, accessors, `access_medical_records`) do not change the
state; `generate_report` only appends an immutable snapshot to the (unmodelled)
report index. -/
inductive Step : HealthcareSystem → HealthcareSystem → Prop
  | registerPatient (s s' : HealthcareSystem) (name email password : String)
      (insurance_details : List (String × String)) (user_id : String)
      (hfresh : FreshUserId s user_id)
      (h : register_user s (mkPatient name email password insurance_details user_id)
        = .ok s') : Step s s'
  | registerDoctor (s s' : HealthcareSystem)
      (name email password specialization user_id : String)
      (hfresh : FreshUserId s user_id)
      (h : register_user s (mkDoctor name email password specialization user_id)
        = .ok s') : Step s s'
  | registerAdministrator (s s' : HealthcareSystem)
      (name email password user_id : String)
      (hfresh : FreshUserId s user_id)
      (h : register_user s (mkAdministrator name email password user_id)
        = .ok s') : Step s s'
  | removeUser (s s' : HealthcareSystem) (user_id : String)
      (h : remove_user s user_id = .ok s') : Step s s'
  | schedule (s s' : HealthcareSystem) (patient_id doctor_id : String)
      (t : Int) (appointment_id : String) (a : Appointment)
      (hfresh : dictGet s.appointments appointment_id = none)
      (h : schedule_appointment s patient_id doctor_id t appointment_id
        = .ok (s', a)) : Step s s'
  | confirm (s s' : HealthcareSystem) (doctor_id : String) (d : DoctorData)
      (appointment_id : String)
      (hd : dictGet s.users doctor_id = some (.doctor d))
      (h : (confirm_appointment s d appointment_id).1 = s') : Step s s'
  | cancel (s s' : HealthcareSystem) (appointment_id : String)
      (h : cancel_appointment s appointment_id = .ok s') : Step s s'
  | reschedule (s s' : HealthcareSystem) (appointment_id : String) (t : Int)
      (h : reschedule_appointment s appointment_id t = .ok s') : Step s s'
  | addMedicalRecord (s s' : HealthcareSystem) (patient_id : String)
      (record : MedicalRecord)
      (hfresh : dictGet s.medical_records record.record_id = none)
      (h : add_medical_record s patient_id record = .ok s') : Step s s'
  | addPrescription (s s' : HealthcareSystem) (patient_id : String)
      (prescription : Prescription)
      (hfresh : dictGet s.prescriptions prescription.prescription_id = none)
      (h : add_prescription s patient_id prescription = .ok s') : Step s s'
  | createBilling (s s' : HealthcareSystem) (now : Int) (patient_id : String)
      (amount_due : Rat) (description : String) (billing_id : String)
      (b : Billing)
      (hfresh : dictGet s.billings billing_id = none)
      (h : create_billing s now patient_id amount_due description billing_id
        = .ok (s', b)) : Step s s'
  | processPayment (s s' : HealthcareSystem) (now : Int) (billing_id : String)
      (amount : Rat)
      (h : process_payment s now billing_id amount = .ok s') : Step s s'

/-- Registry states reachable from process start through the surface. -/
inductive Reach : HealthcareSystem → Prop
  | init : Reach emptySystem
  | step {s s' : HealthcareSystem} : Reach s → Step s s' → Reach s'

/-- The invariant claimed by the spec's data-model table: for one doctor and
one timestamp, at most one appointment is active (`Scheduled` or
`Confirmed`). -/
def ActiveUnique (s : HealthcareSystem) : Prop :=
  ∀ k1 k2 a1 a2, k1 ≠ k2 →
    dictGet s.appointments k1 = some a1 →
    dictGet s.appointments k2 = some a2 →
    a1.doctor_id = a2.doctor_id → a1.date_time = a2.date_time →
    ¬((a1.status = "Scheduled" ∨ a1.status = "Confirmed") ∧
      (a2.status = "Scheduled" ∨ a2.status = "Confirmed"))

/-- The invariant the conflict scan actually enforces: for one doctor and one
timestamp, at most one appointment has status `Scheduled`. -/
def SchedUnique (s : HealthcareSystem) : Prop :=
  ∀ k1 k2 a1 a2, k1 ≠ k2 →
    dictGet s.appointments k1 = some a1 →
    dictGet s.appointments k2 = some a2 →
    a1.doctor_id = a2.doctor_id → a1.date_time = a2.date_time →
    a1.status = "Scheduled" → a2.status = "Scheduled" → False

/-- Every appointment is listed in the appointment list of the doctor its
`doctor_id` resolves to (when it still resolves to a doctor). -/
def DocOwn (s : HealthcareSystem) : Prop :=
  ∀ k a d, dictGet s.appointments k = some a →
    dictGet s.users a.doctor_id = some (.doctor d) →
    k ∈ d.appointments

/-- No operation of the surface ever sets an appointment status to
`Completed`, so the status never occurs in a reachable state. -/
def NoCompleted (s : HealthcareSystem) : Prop :=
  ∀ k a, dictGet s.appointments k = some a → a.status ≠ "Completed"

/-- The conjunction of registry invariants established by induction on
reachability. -/
def RegInv (s : HealthcareSystem) : Prop :=
  DocOwn s ∧ SchedUnique s ∧ NoCompleted s

/-- Unwrap a successful result, with a fallback for the error case (used only
to name concrete states of witness traces). -/
def okOr {α : Type} (r : Except HError α) (dflt : α) : α :=
  match r with
  | .ok v => v
  | .error _ => dflt

/-- Fallback doctor value for `doctorOf` (never reached in the traces below). -/
def noDoctor : DoctorData :=
  { user_id := "", name := "", email := "", password := "",
    specialization := "", appointments := [], patients := [], schedule := [] }

/-- The doctor registered under an id, as Python reads it from the index. -/
def doctorOf (s : HealthcareSystem) (doctor_id : String) : DoctorData :=
  match dictGet s.users doctor_id with
  | some (.doctor d) => d
  | _ => noDoctor

/-- Witness trace, step 1: register a patient under id `p1`. -/
def demo1 : HealthcareSystem :=
  okOr (register_user emptySystem
    (mkPatient "Alice" "alice@example.com" "pw1" [("provider", "X")] "p1"))
    emptySystem

/-- Witness trace, step 2: register a doctor under id `d1`. -/
def demo2 : HealthcareSystem :=
  okOr (register_user demo1
    (mkDoctor "Bob" "bob@example.com" "pw2" "Cardiology" "d1")) demo1

/-- Witness trace, step 3: schedule appointment `a1` of `p1` with `d1` at
instant 10. -/
def demo3 : HealthcareSystem :=
  okOr ((schedule_appointment demo2 "p1" "d1" 10 "a1").map Prod.fst) demo2

/-- Witness trace, step 4: the doctor confirms appointment `a1`. -/
def demo4 : HealthcareSystem :=
  (confirm_appointment demo3 (doctorOf demo3 "d1") "a1").1

/-- Witness trace, step 5: schedule a second appointment `a2` of `p1` with
`d1` at the same instant 10 — the conflict scan does not flag the confirmed
`a1`, so this succeeds. -/
def demo5 : HealthcareSystem :=
  okOr ((schedule_appointment demo4 "p1" "d1" 10 "a2").map Prod.fst) demo4

/-- Alternative continuation of step 3: cancel appointment `a1`. -/
def demo6 : HealthcareSystem :=
  okOr (cancel_appointment demo3 "a1") demo3

/-- Cancelling `a1` a second time (idempotent, keeps status `Cancelled`). -/
def demo7 : HealthcareSystem :=
  okOr (cancel_appointment demo6 "a1") demo6

theorem dictGet_dictSet {α : Type} (l : List (String × α)) (k k' : String)
    (v : α) :
    dictGet (dictSet l k v) k' = if k' = k then some v else dictGet l k' := by
  induction l with
  | nil =>
    rcases eq_or_ne k' k with h | h
    · subst h; simp [dictSet, dictGet]
    · have h' : ¬(k = k') := fun hh => h hh.symm
      simp [dictSet, dictGet, h, h']
  | cons hd tl ih =>
    obtain ⟨hk, hv⟩ := hd
    rcases eq_or_ne hk k with h1 | h1
    · subst h1
      rcases eq_or_ne k' hk with h2 | h2
      · subst h2; simp [dictSet, dictGet]
      · have h2' : ¬(hk = k') := fun hh => h2 hh.symm
        simp [dictSet, dictGet, h2, h2']
    · rcases eq_or_ne hk k' with h2 | h2
      · subst h2
        have h2' : ¬(hk = k) := h1
        simp [dictSet, dictGet, h1, h2']
      · simp [dictSet, dictGet, h1, h2, ih]

theorem dictGet_dictSet_self {α : Type} (l : List (String × α)) (k : String)
    (v : α) : dictGet (dictSet l k v) k = some v := by
  simp [dictGet_dictSet]

theorem dictGet_dictSet_ne {α : Type} (l : List (String × α)) {k k' : String}
    (v : α) (h : k' ≠ k) : dictGet (dictSet l k v) k' = dictGet l k' := by
  simp [dictGet_dictSet, h]

theorem dictGet_dictErase {α : Type} (l : List (String × α)) (k k' : String) :
    dictGet (dictErase l k) k' = if k' = k then none else dictGet l k' := by
  induction l with
  | nil =>
    rcases eq_or_ne k' k with h | h <;> simp [dictErase, dictGet, h]
  | cons hd tl ih =>
    obtain ⟨hk, hv⟩ := hd
    rcases eq_or_ne hk k with h1 | h1
    · subst h1
      rcases eq_or_ne k' hk with h2 | h2
      · subst h2; simp [dictErase, dictGet, ih]
      · have h2' : ¬(hk = k') := fun hh => h2 hh.symm
        simp [dictErase, dictGet, ih, h2, h2']
    · rcases eq_or_ne hk k' with h2 | h2
      · subst h2
        have h1' : ¬(hk = k) := h1
        simp [dictErase, dictGet, ih, h1']
      · have h2' : ¬(hk = k') := h2
        simp [dictErase, dictGet, ih, h1, h2', h2]

theorem setAdd_mem_self (l : List String) (x : String) : x ∈ setAdd l x := by
  unfold setAdd
  rcases Decidable.em (x ∈ l) with h | h <;> simp [h]

theorem register_user_ok {s s' : HealthcareSystem} {user : User}
    (h : register_user s user = .ok s') :
    dictGet s.users_by_email user.email = none ∧
    s' = { s with
      users := dictSet s.users user.user_id user,
      users_by_email := dictSet s.users_by_email user.email user.user_id } := by
  unfold register_user at h
  split at h
  · exact absurd h (by simp)
  · next hne =>
    refine ⟨Option.not_isSome_iff_eq_none.mp (by simpa using hne), ?_⟩
    simpa using h.symm

theorem remove_user_ok {s s' : HealthcareSystem} {user_id : String}
    (h : remove_user s user_id = .ok s') :
    ∃ user, dictGet s.users user_id = some user ∧
      s' = { s with
        users := dictErase s.users user_id,
        users_by_email := dictErase s.users_by_email user.email } := by
  unfold remove_user at h
  split at h
  · exact absurd h (by simp)
  · next user heq =>
    exact ⟨user, heq, by simpa using h.symm⟩

theorem schedule_appointment_ok {s s' : HealthcareSystem}
    {patient_id doctor_id : String} {t : Int} {appointment_id : String}
    {a : Appointment}
    (h : schedule_appointment s patient_id doctor_id t appointment_id
      = .ok (s', a)) :
    ∃ p d, dictGet s.users patient_id = some (.patient p) ∧
      dictGet s.users doctor_id = some (.doctor d) ∧
      doctorConflict s d t = false ∧
      a = { appointment_id := appointment_id, patient_id := patient_id,
            doctor_id := doctor_id, date_time := t, status := "Scheduled",
            notes := "" } ∧
      s' = { s with
        appointments := dictSet s.appointments appointment_id a,
        users := dictSet
          (dictSet s.users doctor_id
            (.doctor { d with
              appointments := d.appointments ++ [appointment_id],
              patients := setAdd d.patients patient_id }))
          patient_id
          (.patient { p with
            appointments := p.appointments ++ [appointment_id] }) } := by
  unfold schedule_appointment at h
  split at h
  · next p d hp hd =>
    split at h
    · exact absurd h (by simp)
    · next hconf =>
      simp only [Except.ok.injEq, Prod.mk.injEq] at h
      obtain ⟨hs, ha⟩ := h
      exact ⟨p, d, hp, hd, Bool.not_eq_true _ ▸ hconf, ha.symm,
        by rw [← hs, ← ha]⟩
  · exact absurd h (by simp)

theorem cancel_appointment_ok {s s' : HealthcareSystem}
    {appointment_id : String}
    (h : cancel_appointment s appointment_id = .ok s') :
    ∃ a, dictGet s.appointments appointment_id = some a ∧
      s' = { s with appointments := dictSet s.appointments appointment_id { a with status := "Cancelled" } } := by
  unfold cancel_appointment at h
  split at h
  · exact absurd h (by simp)
  · next a ha =>
    exact ⟨a, ha, by simpa using h.symm⟩

theorem reschedule_appointment_ok {s s' : HealthcareSystem}
    {appointment_id : String} {t : Int}
    (h : reschedule_appointment s appointment_id t = .ok s') :
    ∃ a d, dictGet s.appointments appointment_id = some a ∧
      dictGet s.users a.doctor_id = some (.doctor d) ∧
      doctorConflict s d t = false ∧
      s' = { s with appointments := dictSet s.appointments appointment_id { a with date_time := t } } := by
  unfold reschedule_appointment at h
  split at h
  · exact absurd h (by simp)
  · next a ha =>
    split at h
    · next d hd =>
      split at h
      · exact absurd h (by simp)
      · next hconf =>
        exact ⟨a, d, ha, hd, Bool.not_eq_true _ ▸ hconf, by simpa using h.symm⟩
    · exact absurd h (by simp)

theorem confirmLoop_fst (s : HealthcareSystem) (aids : List String)
    (appointment_id : String) :
    (confirmLoop s aids appointment_id).1 = s ∨
    ∃ a, appointment_id ∈ aids ∧
      dictGet s.appointments appointment_id = some a ∧
      a.status = "Scheduled" ∧
      (confirmLoop s aids appointment_id).1 =
        { s with appointments := dictSet s.appointments appointment_id { a with status := "Confirmed" } } := by
  induction aids with
  | nil => exact Or.inl rfl
  | cons x rest ih =>
    rcases eq_or_ne x appointment_id with hx | hx
    · subst hx
      simp only [confirmLoop, if_pos rfl]
      cases hg : dictGet s.appointments x with
      | none => exact Or.inl rfl
      | some a =>
        rcases eq_or_ne a.status "Scheduled" with hs | hs
        · exact Or.inr ⟨a, List.mem_cons_self x rest, rfl, hs, by simp [hs]⟩
        · simp only [if_neg hs]
          exact Or.inl rfl
    · simp only [confirmLoop, if_neg hx]
      rcases ih with h | ⟨a, hmem, hg, hs, heq⟩
      · exact Or.inl h
      · exact Or.inr ⟨a, List.mem_cons_of_mem x hmem, hg, hs, heq⟩

theorem add_medical_record_ok {s s' : HealthcareSystem} {patient_id : String}
    {record : MedicalRecord}
    (h : add_medical_record s patient_id record = .ok s') :
    ∃ p, dictGet s.users patient_id = some (.patient p) ∧
      s'.appointments = s.appointments ∧
      s'.users = dictSet s.users patient_id
        (.patient { p with
          medical_history := p.medical_history ++ [record.record_id] }) := by
  unfold add_medical_record at h
  split at h
  · next p hp =>
    simp only [Except.ok.injEq] at h
    exact ⟨p, hp, by rw [← h], by rw [← h]⟩
  · exact absurd h (by simp)

theorem add_prescription_ok {s s' : HealthcareSystem} {patient_id : String}
    {prescription : Prescription}
    (h : add_prescription s patient_id prescription = .ok s') :
    s'.appointments = s.appointments ∧ s'.users = s.users ∧
    s'.billings = s.billings := by
  unfold add_prescription at h
  split at h
  · split at h
    · split at h
      · simp only [Except.ok.injEq] at h
        exact ⟨by rw [← h], by rw [← h], by rw [← h]⟩
      · simp only [Except.ok.injEq] at h
        exact ⟨by rw [← h], by rw [← h], by rw [← h]⟩
    · simp only [Except.ok.injEq] at h
      exact ⟨by rw [← h], by rw [← h], by rw [← h]⟩
  · exact absurd h (by simp)

theorem create_billing_ok {s s' : HealthcareSystem} {now : Int}
    {patient_id : String} {amount_due : Rat} {description billing_id : String}
    {b : Billing}
    (h : create_billing s now patient_id amount_due description billing_id
      = .ok (s', b)) :
    ∃ p, dictGet s.users patient_id = some (.patient p) ∧
      s'.appointments = s.appointments ∧
      s'.users = dictSet s.users patient_id
        (.patient { p with
          billing_info := p.billing_info ++ [billing_id] }) := by
  unfold create_billing at h
  split at h
  · next p hp =>
    simp only [Except.ok.injEq, Prod.mk.injEq] at h
    exact ⟨p, hp, by rw [← h.1], by rw [← h.1]⟩
  · exact absurd h (by simp)

theorem process_payment_ok {s s' : HealthcareSystem} {now : Int}
    {billing_id : String} {amount : Rat}
    (h : process_payment s now billing_id amount = .ok s') :
    s'.appointments = s.appointments ∧ s'.users = s.users := by
  unfold process_payment at h
  split at h
  · exact absurd h (by simp)
  · split at h
    · exact absurd h (by simp)
    · simp only [Except.ok.injEq] at h
      exact ⟨by rw [← h], by rw [← h]⟩

theorem conflict_false_no_scheduled {s : HealthcareSystem} {did : String}
    {d : DoctorData} {t : Int}
    (hOwn : DocOwn s) (hd : dictGet s.users did = some (.doctor d))
    (hscan : doctorConflict s d t = false)
    {k : String} {a : Appointment} (hk : dictGet s.appointments k = some a)
    (hdid : a.doctor_id = did) (hdt : a.date_time = t) :
    a.status ≠ "Scheduled" := by
  intro hst
  have hmem : k ∈ d.appointments := hOwn k a d hk (by rwa [hdid])
  have htrue : doctorConflict s d t = true := by
    unfold doctorConflict
    refine List.any_eq_true.mpr ⟨k, hmem, ?_⟩
    rw [hk]
    simp [hdt, hst]
  rw [htrue] at hscan
  exact Bool.true_eq_false.mp hscan

theorem doctor_lookup_set_patient {users : List (String × User)}
    {pid : String} {p : PatientData} {did : String} {d : DoctorData}
    (hd : dictGet (dictSet users pid (.patient p)) did = some (.doctor d)) :
    dictGet users did = some (.doctor d) := by
  rw [dictGet_dictSet] at hd
  rcases eq_or_ne did pid with h | h
  · rw [if_pos h] at hd
    exact absurd hd (by simp)
  · rwa [if_neg h] at hd

theorem regInv_of_frame {s s' : HealthcareSystem} (hinv : RegInv s)
    (happ : s'.appointments = s.appointments)
    (husers : ∀ did d, dictGet s'.users did = some (.doctor d) →
      dictGet s.users did = some (.doctor d)) : RegInv s' := by
  obtain ⟨hOwn, hU, hC⟩ := hinv
  refine ⟨?_, ?_, ?_⟩
  · intro k a d hk hd
    exact hOwn k a d (happ ▸ hk) (husers _ _ hd)
  · intro k1 k2 a1 a2 hne h1 h2
    exact hU k1 k2 a1 a2 hne (happ ▸ h1) (happ ▸ h2)
  · intro k a hk
    exact hC k a (happ ▸ hk)

theorem regInv_register {s s' : HealthcareSystem} {user : User}
    (hfresh : FreshUserId s user.user_id)
    (h : register_user s user = .ok s')
    (hinv : RegInv s) : RegInv s' := by
  obtain ⟨_, hs'⟩ := register_user_ok h
  subst hs'
  obtain ⟨hOwn, hU, hC⟩ := hinv
  refine ⟨?_, ?_, ?_⟩
  · intro k a d hk hd
    simp only at hk hd
    have hne : a.doctor_id ≠ user.user_id := (hfresh.2 k a hk).1
    rw [dictGet_dictSet, if_neg hne] at hd
    exact hOwn k a d hk hd
  · intro k1 k2 a1 a2 hne h1 h2
    exact hU k1 k2 a1 a2 hne h1 h2
  · intro k a hk
    exact hC k a hk

theorem regInv_remove {s s' : HealthcareSystem} {user_id : String}
    (h : remove_user s user_id = .ok s') (hinv : RegInv s) : RegInv s' := by
  obtain ⟨user, hu, hs'⟩ := remove_user_ok h
  subst hs'
  refine regInv_of_frame hinv rfl ?_
  intro did d hd
  simp only at hd
  rw [dictGet_dictErase] at hd
  rcases eq_or_ne did user_id with h1 | h1
  · rw [if_pos h1] at hd
    exact absurd hd (by simp)
  · rwa [if_neg h1] at hd

theorem regInv_schedule {s s' : HealthcareSystem} {pid did : String} {t : Int}
    {aid : String} {a : Appointment}
    (h : schedule_appointment s pid did t aid = .ok (s', a))
    (hinv : RegInv s) : RegInv s' := by
  obtain ⟨hOwn, hU, hC⟩ := hinv
  obtain ⟨p, d, hp, hd, hscan, ha, hs'⟩ := schedule_appointment_ok h
  have hpd : pid ≠ did := by
    intro he
    rw [he, hd] at hp
    exact absurd (Option.some.inj hp) (by simp)
  subst hs'
  subst ha
  refine ⟨?_, ?_, ?_⟩
  · intro k a' dd hk hdd
    simp only at hk hdd
    rw [dictGet_dictSet] at hk
    rcases eq_or_ne k aid with hka | hka
    · rw [if_pos hka] at hk
      have e := Option.some.inj hk
      subst e
      dsimp only at hdd
      have hdd' := doctor_lookup_set_patient hdd
      rw [dictGet_dictSet_self] at hdd'
      have edd := Option.some.inj hdd'
      injection edd with edd'
      subst edd'
      rw [hka]
      dsimp only
      simp
    · rw [if_neg hka] at hk
      have hdd' := doctor_lookup_set_patient hdd
      rw [dictGet_dictSet] at hdd'
      rcases eq_or_ne a'.doctor_id did with hdid | hdid
      · rw [if_pos hdid] at hdd'
        have edd := Option.some.inj hdd'
        injection edd with edd'
        subst edd'
        have hmem := hOwn k a' d hk (hdid ▸ hd)
        dsimp only
        exact List.mem_append_left _ hmem
      · rw [if_neg hdid] at hdd'
        exact hOwn k a' dd hk hdd'
  · intro k1 k2 a1 a2 hne h1 h2 hdoc hdt hs1 hs2
    simp only at h1 h2
    rw [dictGet_dictSet] at h1 h2
    rcases eq_or_ne k1 aid with hk1 | hk1 <;> rcases eq_or_ne k2 aid with hk2 | hk2
    · exact hne (hk1.trans hk2.symm)
    · rw [if_pos hk1] at h1
      rw [if_neg hk2] at h2
      have e1 := Option.some.inj h1
      have hd2 : a2.doctor_id = did := by rw [← hdoc, ← e1]
      have ht2 : a2.date_time = t := by rw [← hdt, ← e1]
      exact conflict_false_no_scheduled hOwn hd hscan h2 hd2 ht2 hs2
    · rw [if_neg hk1] at h1
      rw [if_pos hk2] at h2
      have e2 := Option.some.inj h2
      have hd1 : a1.doctor_id = did := by rw [hdoc, ← e2]
      have ht1 : a1.date_time = t := by rw [hdt, ← e2]
      exact conflict_false_no_scheduled hOwn hd hscan h1 hd1 ht1 hs1
    · rw [if_neg hk1] at h1
      rw [if_neg hk2] at h2
      exact hU k1 k2 a1 a2 hne h1 h2 hdoc hdt hs1 hs2
  · intro k a' hk
    simp only at hk
    rw [dictGet_dictSet] at hk
    rcases eq_or_ne k aid with hka | hka
    · rw [if_pos hka] at hk
      have e := Option.some.inj hk
      rw [← e]
      simp
    · rw [if_neg hka] at hk
      exact hC k a' hk

theorem regInv_confirm {s : HealthcareSystem} {d : DoctorData} {aid : String}
    (hinv : RegInv s) : RegInv (confirm_appointment s d aid).1 := by
  obtain ⟨hOwn, hU, hC⟩ := hinv
  rcases confirmLoop_fst s d.appointments aid with heq | ⟨a0, hmem, hg, hsch, heq⟩
  · have heq' : (confirm_appointment s d aid).1 = s := heq
    rw [heq']
    exact ⟨hOwn, hU, hC⟩
  · have heq' : (confirm_appointment s d aid).1 =
      { s with appointments := dictSet s.appointments aid { a0 with status := "Confirmed" } } := heq
    rw [heq']
    refine ⟨?_, ?_, ?_⟩
    · intro k a' dd hk hdd
      simp only at hk hdd
      rw [dictGet_dictSet] at hk
      rcases eq_or_ne k aid with hka | hka
      · rw [if_pos hka] at hk
        have e := Option.some.inj hk
        subst e
        dsimp only at hdd
        rw [hka]
        exact hOwn aid a0 dd hg hdd
      · rw [if_neg hka] at hk
        exact hOwn k a' dd hk hdd
    · intro k1 k2 a1 a2 hne h1 h2 hdoc hdt hs1 hs2
      simp only at h1 h2
      rw [dictGet_dictSet] at h1 h2
      rcases eq_or_ne k1 aid with hk1 | hk1
      · rw [if_pos hk1] at h1
        have e := Option.some.inj h1
        rw [← e] at hs1
        dsimp only at hs1
        exact absurd hs1 (by decide)
      · rcases eq_or_ne k2 aid with hk2 | hk2
        · rw [if_pos hk2] at h2
          have e := Option.some.inj h2
          rw [← e] at hs2
          dsimp only at hs2
          exact absurd hs2 (by decide)
        · rw [if_neg hk1] at h1
          rw [if_neg hk2] at h2
          exact hU k1 k2 a1 a2 hne h1 h2 hdoc hdt hs1 hs2
    · intro k a' hk
      simp only at hk
      rw [dictGet_dictSet] at hk
      rcases eq_or_ne k aid with hka | hka
      · rw [if_pos hka] at hk
        have e := Option.some.inj hk
        rw [← e]
        simp
      · rw [if_neg hka] at hk
        exact hC k a' hk

theorem regInv_cancel {s s' : HealthcareSystem} {aid : String}
    (h : cancel_appointment s aid = .ok s') (hinv : RegInv s) : RegInv s' := by
  obtain ⟨hOwn, hU, hC⟩ := hinv
  obtain ⟨a0, hg, hs'⟩ := cancel_appointment_ok h
  subst hs'
  refine ⟨?_, ?_, ?_⟩
  · intro k a' dd hk hdd
    simp only at hk hdd
    rw [dictGet_dictSet] at hk
    rcases eq_or_ne k aid with hka | hka
    · rw [if_pos hka] at hk
      have e := Option.some.inj hk
      subst e
      dsimp only at hdd
      rw [hka]
      exact hOwn aid a0 dd hg hdd
    · rw [if_neg hka] at hk
      exact hOwn k a' dd hk hdd
  · intro k1 k2 a1 a2 hne h1 h2 hdoc hdt hs1 hs2
    simp only at h1 h2
    rw [dictGet_dictSet] at h1 h2
    rcases eq_or_ne k1 aid with hk1 | hk1
    · rw [if_pos hk1] at h1
      have e := Option.some.inj h1
      rw [← e] at hs1
      dsimp only at hs1
      exact absurd hs1 (by decide)
    · rcases eq_or_ne k2 aid with hk2 | hk2
      · rw [if_pos hk2] at h2
        have e := Option.some.inj h2
        rw [← e] at hs2
        dsimp only at hs2
        exact absurd hs2 (by decide)
      · rw [if_neg hk1] at h1
        rw [if_neg hk2] at h2
        exact hU k1 k2 a1 a2 hne h1 h2 hdoc hdt hs1 hs2
  · intro k a' hk
    simp only at hk
    rw [dictGet_dictSet] at hk
    rcases eq_or_ne k aid with hka | hka
    · rw [if_pos hka] at hk
      have e := Option.some.inj hk
      rw [← e]
      simp
    · rw [if_neg hka] at hk
      exact hC k a' hk

theorem regInv_reschedule {s s' : HealthcareSystem} {aid : String} {t : Int}
    (h : reschedule_appointment s aid t = .ok s') (hinv : RegInv s) :
    RegInv s' := by
  obtain ⟨hOwn, hU, hC⟩ := hinv
  obtain ⟨a0, d, hg, hd, hscan, hs'⟩ := reschedule_appointment_ok h
  subst hs'
  refine ⟨?_, ?_, ?_⟩
  · intro k a' dd hk hdd
    simp only at hk hdd
    rw [dictGet_dictSet] at hk
    rcases eq_or_ne k aid with hka | hka
    · rw [if_pos hka] at hk
      have e := Option.some.inj hk
      subst e
      dsimp only at hdd
      rw [hka]
      exact hOwn aid a0 dd hg hdd
    · rw [if_neg hka] at hk
      exact hOwn k a' dd hk hdd
  · intro k1 k2 a1 a2 hne h1 h2 hdoc hdt hs1 hs2
    simp only at h1 h2
    rw [dictGet_dictSet] at h1 h2
    rcases eq_or_ne k1 aid with hk1 | hk1 <;> rcases eq_or_ne k2 aid with hk2 | hk2
    · exact hne (hk1.trans hk2.symm)
    · rw [if_pos hk1] at h1
      rw [if_neg hk2] at h2
      have e1 := Option.some.inj h1
      have hst0 : a0.status = "Scheduled" := by
        rw [← e1] at hs1
        exact hs1
      have hd2 : a2.doctor_id = a0.doctor_id := by rw [← hdoc, ← e1]
      have ht2 : a2.date_time = t := by rw [← hdt, ← e1]
      exact conflict_false_no_scheduled hOwn hd hscan h2 hd2 ht2 hs2
    · rw [if_neg hk1] at h1
      rw [if_pos hk2] at h2
      have e2 := Option.some.inj h2
      have hd1 : a1.doctor_id = a0.doctor_id := by rw [hdoc, ← e2]
      have ht1 : a1.date_time = t := by rw [hdt, ← e2]
      exact conflict_false_no_scheduled hOwn hd hscan h1 hd1 ht1 hs1
    · rw [if_neg hk1] at h1
      rw [if_neg hk2] at h2
      exact hU k1 k2 a1 a2 hne h1 h2 hdoc hdt hs1 hs2
  · intro k a' hk
    simp only at hk
    rw [dictGet_dictSet] at hk
    rcases eq_or_ne k aid with hka | hka
    · rw [if_pos hka] at hk
      have e := Option.some.inj hk
      rw [← e]
      dsimp only
      exact hC aid a0 hg
    · rw [if_neg hka] at hk
      exact hC k a' hk

theorem regInv_patient_set {s s' : HealthcareSystem} {pid : String}
    {p' : PatientData} (hinv : RegInv s)
    (happ : s'.appointments = s.appointments)
    (hu : s'.users = dictSet s.users pid (.patient p')) : RegInv s' :=
  regInv_of_frame hinv happ
    (fun _ _ hd => doctor_lookup_set_patient (hu ▸ hd))

theorem regInv_add_medical_record {s s' : HealthcareSystem}
    {patient_id : String} {record : MedicalRecord}
    (h : add_medical_record s patient_id record = .ok s') (hinv : RegInv s) :
    RegInv s' := by
  obtain ⟨p, hp, happ, hu⟩ := add_medical_record_ok h
  exact regInv_patient_set hinv happ hu

theorem regInv_add_prescription {s s' : HealthcareSystem}
    {patient_id : String} {prescription : Prescription}
    (h : add_prescription s patient_id prescription = .ok s')
    (hinv : RegInv s) : RegInv s' := by
  obtain ⟨happ, hu, _⟩ := add_prescription_ok h
  exact regInv_of_frame hinv happ (fun _ _ hd => hu ▸ hd)

theorem regInv_create_billing {s s' : HealthcareSystem} {now : Int}
    {patient_id : String} {amount_due : Rat} {description billing_id : String}
    {b : Billing}
    (h : create_billing s now patient_id amount_due description billing_id
      = .ok (s', b)) (hinv : RegInv s) : RegInv s' := by
  obtain ⟨p, hp, happ, hu⟩ := create_billing_ok h
  exact regInv_patient_set hinv happ hu

theorem regInv_process_payment {s s' : HealthcareSystem} {now : Int}
    {billing_id : String} {amount : Rat}
    (h : process_payment s now billing_id amount = .ok s') (hinv : RegInv s) :
    RegInv s' := by
  obtain ⟨happ, hu⟩ := process_payment_ok h
  exact regInv_of_frame hinv happ (fun _ _ hd => hu ▸ hd)

theorem step_regInv {s s' : HealthcareSystem} (hinv : RegInv s)
    (hstep : Step s s') : RegInv s' := by
  cases hstep with
  | registerPatient name email password ins uid hfresh h =>
    exact @regInv_register s s' (mkPatient name email password ins uid)
      hfresh h hinv
  | registerDoctor name email password specialization uid hfresh h =>
    exact @regInv_register s s'
      (mkDoctor name email password specialization uid) hfresh h hinv
  | registerAdministrator name email password uid hfresh h =>
    exact @regInv_register s s' (mkAdministrator name email password uid)
      hfresh h hinv
  | removeUser uid h => exact regInv_remove h hinv
  | schedule pid did t aid a hfresh h => exact regInv_schedule h hinv
  | confirm did d aid hd h =>
    rw [← h]
    exact regInv_confirm hinv
  | cancel aid h => exact regInv_cancel h hinv
  | reschedule aid t h => exact regInv_reschedule h hinv
  | addMedicalRecord pid record hfresh h =>
    exact regInv_add_medical_record h hinv
  | addPrescription pid prescription hfresh h =>
    exact regInv_add_prescription h hinv
  | createBilling now pid amount_due description billing_id b hfresh h =>
    exact regInv_create_billing h hinv
  | processPayment now billing_id amount h =>
    exact regInv_process_payment h hinv

theorem reach_regInv {s : HealthcareSystem} (h : Reach s) : RegInv s := by
  induction h with
  | init =>
    refine ⟨?_, ?_, ?_⟩
    · intro k a d hk
      simp [emptySystem, dictGet] at hk
    · intro k1 k2 a1 a2 hne h1
      simp [emptySystem, dictGet] at h1
    · intro k a hk
      simp [emptySystem, dictGet] at hk
  | step hr hstep ih => exact step_regInv ih hstep

theorem freshUserId_of (s : HealthcareSystem) (uid : String)
    (h1 : dictGet s.users uid = none) (h2 : s.appointments = []) :
    FreshUserId s uid :=
  ⟨h1, fun k a hk => by
    rw [h2] at hk
    exact absurd hk (by simp [dictGet])⟩

theorem confirmLoop_not_mem {s : HealthcareSystem} {aids : List String}
    {aid : String} (h : aid ∉ aids) :
    confirmLoop s aids aid = (s, "Appointment " ++ aid ++ " not found.") := by
  induction aids with
  | nil => rfl
  | cons x rest ih =>
    have hx : x ≠ aid := fun he => h (he ▸ List.mem_cons_self x rest)
    simp only [confirmLoop, if_neg hx]
    exact ih (fun hm => h (List.mem_cons_of_mem x hm))

theorem confirmLoop_missing {s : HealthcareSystem} {aids : List String}
    {aid : String} (hg : dictGet s.appointments aid = none) :
    confirmLoop s aids aid = (s, "Appointment " ++ aid ++ " not found.") := by
  induction aids with
  | nil => rfl
  | cons x rest ih =>
    rcases eq_or_ne x aid with hx | hx
    · subst hx
      simp only [confirmLoop]
      rw [if_pos trivial, hg]
    · simp only [confirmLoop, if_neg hx]
      exact ih

theorem confirmLoop_wrong_state {s : HealthcareSystem} {aids : List String}
    {aid : String} {a : Appointment}
    (hmem : aid ∈ aids) (hg : dictGet s.appointments aid = some a)
    (hns : a.status ≠ "Scheduled") :
    confirmLoop s aids aid
      = (s, "Appointment " ++ aid ++ " cannot be confirmed as it is "
          ++ a.status ++ ".") := by
  induction aids with
  | nil => exact absurd hmem (List.not_mem_nil aid)
  | cons x rest ih =>
    rcases eq_or_ne x aid with hx | hx
    · subst hx
      simp only [confirmLoop]
      rw [if_pos trivial, hg]
      dsimp only
      rw [if_neg hns]
    · simp only [confirmLoop, if_neg hx]
      exact ih ((List.mem_cons.mp hmem).resolve_left (fun he => hx he.symm))

theorem confirmLoop_scheduled {s : HealthcareSystem} {aids : List String}
    {aid : String} {a : Appointment}
    (hmem : aid ∈ aids) (hg : dictGet s.appointments aid = some a)
    (hs : a.status = "Scheduled") :
    confirmLoop s aids aid
      = ({ s with appointments := dictSet s.appointments aid { a with status := "Confirmed" } },
         "Appointment " ++ aid ++ " has been confirmed.") := by
  induction aids with
  | nil => exact absurd hmem (List.not_mem_nil aid)
  | cons x rest ih =>
    rcases eq_or_ne x aid with hx | hx
    · subst hx
      simp only [confirmLoop]
      rw [if_pos trivial, hg]
      dsimp only
      rw [if_pos hs]
    · simp only [confirmLoop, if_neg hx]
      exact ih ((List.mem_cons.mp hmem).resolve_left (fun he => hx he.symm))

theorem reach_demo1 : Reach demo1 :=
  Reach.step Reach.init
    (Step.registerPatient emptySystem demo1 "Alice" "alice@example.com" "pw1"
      [("provider", "X")] "p1" (freshUserId_of _ _ rfl rfl) rfl)

theorem reach_demo2 : Reach demo2 :=
  Reach.step reach_demo1
    (Step.registerDoctor demo1 demo2 "Bob" "bob@example.com" "pw2"
      "Cardiology" "d1" (freshUserId_of _ _ rfl rfl) rfl)

theorem reach_demo3 : Reach demo3 :=
  Reach.step reach_demo2
    (Step.schedule demo2 demo3 "p1" "d1" 10 "a1"
      { appointment_id := "a1", patient_id := "p1", doctor_id := "d1",
        date_time := 10, status := "Scheduled", notes := "" } rfl rfl)

theorem reach_demo4 : Reach demo4 :=
  Reach.step reach_demo3
    (Step.confirm demo3 demo4 "d1" (doctorOf demo3 "d1") "a1" rfl rfl)

theorem reach_demo5 : Reach demo5 :=
  Reach.step reach_demo4
    (Step.schedule demo4 demo5 "p1" "d1" 10 "a2"
      { appointment_id := "a2", patient_id := "p1", doctor_id := "d1",
        date_time := 10, status := "Scheduled", notes := "" } rfl rfl)

theorem reach_demo6 : Reach demo6 :=
  Reach.step reach_demo3 (Step.cancel demo3 demo6 "a1" rfl)

/-- Claim C1, as stated, is false on the code: the conflict scan of
`schedule_appointment` only flags appointments whose status is `Scheduled`,
so after schedule → confirm, a second schedule for the same doctor and
timestamp succeeds, and the reachable state `demo5` holds two active
appointments (`a1` Confirmed, `a2` Scheduled) of doctor `d1` at instant 10. -/
theorem c1_active_unique_counterexample :
    Reach demo5 ∧
    dictGet demo5.appointments "a1"
      = some { appointment_id := "a1", patient_id := "p1", doctor_id := "d1",
               date_time := 10, status := "Confirmed", notes := "" } ∧
    dictGet demo5.appointments "a2"
      = some { appointment_id := "a2", patient_id := "p1", doctor_id := "d1",
               date_time := 10, status := "Scheduled", notes := "" } ∧
    ¬ ActiveUnique demo5 := by
  refine ⟨reach_demo5, rfl, rfl, ?_⟩
  intro h
  exact h "a1" "a2"
    { appointment_id := "a1", patient_id := "p1", doctor_id := "d1",
      date_time := 10, status := "Confirmed", notes := "" }
    { appointment_id := "a2", patient_id := "p1", doctor_id := "d1",
      date_time := 10, status := "Scheduled", notes := "" }
    (by decide) rfl rfl rfl rfl ⟨Or.inr rfl, Or.inl rfl⟩

/-- Claim C1 (amended): in every reachable registry state, no two
appointments of the same doctor at the same timestamp both have status
`Scheduled`; every operation sequence over the surface preserves this.
(The original claim also protected `Confirmed` appointments; the conflict
scan does not, see the counterexample.) -/
theorem c1_sched_unique_invariant {s : HealthcareSystem} (h : Reach s) :
    SchedUnique s :=
  (reach_regInv h).2.1

/-- Witness: the invariant holds at the concrete reachable state `demo5`. -/
theorem c1_sched_unique_invariant_witness : SchedUnique demo5 :=
  c1_sched_unique_invariant reach_demo5

/-- Claim C2: after `scheduleAppointment(_, D, T)` succeeds, an immediately
following `scheduleAppointment(_, D, T)` with a valid patient id fails with
`SchedulingConflict`, and the first appointment is still indexed with status
`Scheduled`. -/
theorem c2_second_schedule_conflicts {s s1 : HealthcareSystem}
    {pid did : String} {t : Int} {aid : String} {a : Appointment}
    (h1 : schedule_appointment s pid did t aid = .ok (s1, a))
    {pid2 aid2 : String} {p2 : PatientData}
    (hp2 : dictGet s1.users pid2 = some (.patient p2)) :
    schedule_appointment s1 pid2 did t aid2
      = .error (.schedulingConflictError "Doctor is not available at this time.") ∧
    dictGet s1.appointments aid = some a ∧ a.status = "Scheduled" := by
  obtain ⟨p, d, hp, hd, hscan, ha, hs1⟩ := schedule_appointment_ok h1
  have hpd : pid ≠ did := by
    intro he
    rw [he, hd] at hp
    exact absurd (Option.some.inj hp) (by simp)
  subst hs1
  subst ha
  have hdid : dictGet (dictSet (dictSet s.users did (User.doctor { d with appointments := d.appointments ++ [aid], patients := setAdd d.patients pid })) pid (User.patient { p with appointments := p.appointments ++ [aid] })) did = some (User.doctor { d with appointments := d.appointments ++ [aid], patients := setAdd d.patients pid }) := by
    rw [dictGet_dictSet_ne _ _ (fun he => hpd he.symm), dictGet_dictSet_self]
  have hconf : doctorConflict { s with appointments := dictSet s.appointments aid { appointment_id := aid, patient_id := pid, doctor_id := did, date_time := t, status := "Scheduled", notes := "" }, users := dictSet (dictSet s.users did (User.doctor { d with appointments := d.appointments ++ [aid], patients := setAdd d.patients pid })) pid (User.patient { p with appointments := p.appointments ++ [aid] }) } { d with appointments := d.appointments ++ [aid], patients := setAdd d.patients pid } t = true := by
    unfold doctorConflict
    refine List.any_eq_true.mpr ⟨aid, ?_, ?_⟩
    · dsimp only
      exact List.mem_append_right _ (List.mem_singleton.mpr rfl)
    · dsimp only
      rw [dictGet_dictSet_self]
      simp
  refine ⟨?_, ?_, rfl⟩
  · unfold schedule_appointment
    rw [hp2]
    dsimp only at hdid ⊢
    rw [hdid]
    dsimp only
    rw [if_pos hconf]
  · dsimp only
    rw [dictGet_dictSet_self]

/-- Witness for C2 at the concrete trace: scheduling `a2` for doctor `d1` at
the taken instant 10 fails, while `a1` stays `Scheduled`. -/
theorem c2_second_schedule_conflicts_witness :
    schedule_appointment demo3 "p1" "d1" 10 "a2"
      = .error (.schedulingConflictError "Doctor is not available at this time.") ∧
    dictGet demo3.appointments "a1"
      = some { appointment_id := "a1", patient_id := "p1", doctor_id := "d1",
               date_time := 10, status := "Scheduled", notes := "" } ∧
    ({ appointment_id := "a1", patient_id := "p1", doctor_id := "d1",
       date_time := 10, status := "Scheduled", notes := "" } : Appointment).status
      = "Scheduled" :=
  c2_second_schedule_conflicts
    (show schedule_appointment demo2 "p1" "d1" 10 "a1"
        = Except.ok (demo3,
          { appointment_id := "a1", patient_id := "p1", doctor_id := "d1",
            date_time := 10, status := "Scheduled", notes := "" }) from rfl)
    (by rfl)

/-- Claim C7: in every reachable registry state, no operation of the surface
changes the status of an appointment whose status is `Cancelled` or
`Completed` to a different status.  (`Completed` never occurs in a reachable
state — no operation ever sets it — and a `Cancelled` appointment is only
ever re-set to `Cancelled` by the idempotent cancel.) -/
theorem c7_terminal_status_stable {s s' : HealthcareSystem}
    (hreach : Reach s) (hstep : Step s s') {k : String} {a : Appointment}
    (hk : dictGet s.appointments k = some a)
    (hterm : a.status = "Cancelled" ∨ a.status = "Completed") :
    ∃ a', dictGet s'.appointments k = some a' ∧ a'.status = a.status := by
  have hcanc : a.status = "Cancelled" := by
    rcases hterm with h | h
    · exact h
    · exact absurd h ((reach_regInv hreach).2.2 k a hk)
  cases hstep with
  | registerPatient name email password ins uid hfresh h =>
    obtain ⟨_, hs'⟩ := register_user_ok h
    subst hs'
    exact ⟨a, hk, rfl⟩
  | registerDoctor name email password specialization uid hfresh h =>
    obtain ⟨_, hs'⟩ := register_user_ok h
    subst hs'
    exact ⟨a, hk, rfl⟩
  | registerAdministrator name email password uid hfresh h =>
    obtain ⟨_, hs'⟩ := register_user_ok h
    subst hs'
    exact ⟨a, hk, rfl⟩
  | removeUser uid h =>
    obtain ⟨u, hu, hs'⟩ := remove_user_ok h
    subst hs'
    exact ⟨a, hk, rfl⟩
  | schedule pid did t aid a2 hfresh h =>
    obtain ⟨p, d, hp, hd, hscan, ha2, hs'⟩ := schedule_appointment_ok h
    subst hs'
    have hne : k ≠ aid := by
      intro he
      rw [he, hfresh] at hk
      exact Option.noConfusion hk
    refine ⟨a, ?_, rfl⟩
    simp only
    rw [dictGet_dictSet, if_neg hne]
    exact hk
  | confirm did d aid hd h =>
    rcases confirmLoop_fst s d.appointments aid with heq | ⟨a0, hmem, hg, hsch, heq⟩
    · have heq' : (confirm_appointment s d aid).1 = s := heq
      rw [← h, heq']
      exact ⟨a, hk, rfl⟩
    · have heq' : (confirm_appointment s d aid).1 = { s with appointments := dictSet s.appointments aid { a0 with status := "Confirmed" } } := heq
      rw [← h, heq']
      have hne : k ≠ aid := by
        intro he
        rw [he, hg] at hk
        rw [Option.some.inj hk, hcanc] at hsch
        exact absurd hsch (by decide)
      refine ⟨a, ?_, rfl⟩
      simp only
      rw [dictGet_dictSet, if_neg hne]
      exact hk
  | cancel aid h =>
    obtain ⟨a0, hg, hs'⟩ := cancel_appointment_ok h
    subst hs'
    rcases eq_or_ne k aid with hka | hka
    · refine ⟨{ a0 with status := "Cancelled" }, ?_, ?_⟩
      · simp only
        rw [dictGet_dictSet, if_pos hka]
      · rw [hcanc]
    · refine ⟨a, ?_, rfl⟩
      simp only
      rw [dictGet_dictSet, if_neg hka]
      exact hk
  | reschedule aid t h =>
    obtain ⟨a0, d, hg, hd, hscan, hs'⟩ := reschedule_appointment_ok h
    subst hs'
    rcases eq_or_ne k aid with hka | hka
    · have e : a0 = a := by
        rw [hka, hg] at hk
        exact Option.some.inj hk
      refine ⟨{ a0 with date_time := t }, ?_, ?_⟩
      · simp only
        rw [dictGet_dictSet, if_pos hka]
      · dsimp only
        rw [e]
    · refine ⟨a, ?_, rfl⟩
      simp only
      rw [dictGet_dictSet, if_neg hka]
      exact hk
  | addMedicalRecord pid record hfresh h =>
    obtain ⟨p, hp, happ, hu⟩ := add_medical_record_ok h
    refine ⟨a, ?_, rfl⟩
    rw [happ]
    exact hk
  | addPrescription pid prescription hfresh h =>
    obtain ⟨happ, hu, hb⟩ := add_prescription_ok h
    refine ⟨a, ?_, rfl⟩
    rw [happ]
    exact hk
  | createBilling now pid amount_due description billing_id b hfresh h =>
    obtain ⟨p, hp, happ, hu⟩ := create_billing_ok h
    refine ⟨a, ?_, rfl⟩
    rw [happ]
    exact hk
  | processPayment now billing_id amount h =>
    obtain ⟨happ, hu⟩ := process_payment_ok h
    refine ⟨a, ?_, rfl⟩
    rw [happ]
    exact hk

/-- Witness for C7: cancelling the already-cancelled `a1` again leaves its
status `Cancelled`. -/
theorem c7_terminal_status_stable_witness :
    ∃ a', dictGet demo7.appointments "a1" = some a' ∧
      a'.status = "Cancelled" :=
  @c7_terminal_status_stable demo6 demo7 reach_demo6
    (Step.cancel demo6 demo7 "a1" rfl) "a1"
    { appointment_id := "a1", patient_id := "p1", doctor_id := "d1",
      date_time := 10, status := "Cancelled", notes := "" }
    rfl (Or.inl rfl)

/-- Claim C8: rescheduling a `Scheduled` appointment (whose doctor id
resolves) to its own current timestamp fails with `SchedulingConflict` —
the conflict scan runs over all `Scheduled` appointments of the doctor,
including the one being moved.  The error leaves the registry unchanged, so
the timestamp is untouched. -/
theorem c8_reschedule_self_conflict {s : HealthcareSystem} {aid : String}
    {a : Appointment} {d : DoctorData}
    (hreach : Reach s)
    (hk : dictGet s.appointments aid = some a)
    (hst : a.status = "Scheduled")
    (hd : dictGet s.users a.doctor_id = some (.doctor d)) :
    reschedule_appointment s aid a.date_time
      = .error (.schedulingConflictError "Doctor is not available at the new time.") := by
  have hmem : aid ∈ d.appointments := (reach_regInv hreach).1 aid a d hk hd
  have hconf : doctorConflict s d a.date_time = true := by
    unfold doctorConflict
    refine List.any_eq_true.mpr ⟨aid, hmem, ?_⟩
    rw [hk]
    simp [hst]
  unfold reschedule_appointment
  rw [hk]
  dsimp only
  rw [hd]
  dsimp only
  rw [if_pos hconf]

/-- Witness for C8: rescheduling the scheduled `a1` to its own instant 10
fails with the conflict error. -/
theorem c8_reschedule_self_conflict_witness :
    reschedule_appointment demo3 "a1" 10
      = .error (.schedulingConflictError "Doctor is not available at the new time.") :=
  @c8_reschedule_self_conflict demo3 "a1"
    { appointment_id := "a1", patient_id := "p1", doctor_id := "d1",
      date_time := 10, status := "Scheduled", notes := "" }
    (doctorOf demo3 "d1") reach_demo3 rfl rfl rfl

/-- Claim C3: a partial payment `0 < amount < amount_due` on an `Unpaid`
billing succeeds, decreases the amount due by exactly the amount, never sets
status `Paid`, and sets `Overdue` exactly when the current time is past the
due date (otherwise the status stays `Unpaid`). -/
theorem c3_partial_payment {b : Billing} {now : Int} {amount : Rat}
    (h0 : 0 < amount) (h1 : amount < b.amount_due)
    (hst : b.status = "Unpaid") :
    ∃ b', b.apply_payment now amount = .ok b' ∧
      b'.amount_due = b.amount_due - amount ∧
      b'.status ≠ "Paid" ∧
      b'.status = (if now > b.due_date then "Overdue" else "Unpaid") := by
  unfold Billing.apply_payment
  rw [if_neg (not_le.mpr h0), if_neg (not_le.mpr h1), if_pos ⟨h0, h1⟩]
  refine ⟨_, rfl, rfl, ?_, ?_⟩
  · dsimp only
    rw [hst]
    split
    · decide
    · decide
  · dsimp only
    rw [hst]

/-- Witness for C3: paying 40 of 100 before the due date leaves 60 due,
status `Unpaid`. -/
theorem c3_partial_payment_witness :
    ∃ b', Billing.apply_payment
        { billing_id := "b1", patient_id := "p1", amount_due := 100,
          due_date := 30, status := "Unpaid", description := "visit" }
        0 40 = .ok b' ∧
      b'.amount_due = 100 - 40 ∧
      b'.status ≠ "Paid" ∧
      b'.status = (if (0 : Int) > 30 then "Overdue" else "Unpaid") :=
  c3_partial_payment (by norm_num) (by norm_num) rfl

/-- Claim C4: a non-positive payment amount fails with the billing error
`Payment amount must be positive.`; no state escapes (`apply_payment` returns
only the error, and `process_payment` propagates it without touching the
registry). -/
theorem c4_nonpositive_payment {b : Billing} {now : Int} {amount : Rat}
    (h : amount ≤ 0) :
    b.apply_payment now amount
      = .error (.billingError "Payment amount must be positive.") ∧
    ∀ (s : HealthcareSystem) (billing_id : String),
      dictGet s.billings billing_id = some b →
      process_payment s now billing_id amount
        = .error (.billingError "Payment amount must be positive.") := by
  have he : b.apply_payment now amount
      = .error (.billingError "Payment amount must be positive.") := by
    unfold Billing.apply_payment
    rw [if_pos h]
  refine ⟨he, ?_⟩
  intro s billing_id hb
  unfold process_payment
  rw [hb]
  dsimp only
  rw [he]

/-- Witness for C4 at amounts 0 and -5 on a concrete billing. -/
theorem c4_nonpositive_payment_witness :
    Billing.apply_payment
        { billing_id := "b1", patient_id := "p1", amount_due := 100,
          due_date := 30, status := "Unpaid", description := "visit" }
        0 0 = .error (.billingError "Payment amount must be positive.") ∧
    Billing.apply_payment
        { billing_id := "b1", patient_id := "p1", amount_due := 100,
          due_date := 30, status := "Unpaid", description := "visit" }
        0 (-5) = .error (.billingError "Payment amount must be positive.") :=
  ⟨(c4_nonpositive_payment (by norm_num)).1,
   (c4_nonpositive_payment (by norm_num)).1⟩

/-- Claim C10: paying against a billing id absent from the billing index
fails with the billing error kind (`BillingError`), not the not-found kind
(`RecordNotFoundError`); the error leaves the registry unchanged. -/
theorem c10_missing_billing_error_kind {s : HealthcareSystem} {now : Int}
    {billing_id : String} {amount : Rat}
    (h : dictGet s.billings billing_id = none) :
    process_payment s now billing_id amount
      = .error (.billingError "Billing record not found.") ∧
    ∀ msg, process_payment s now billing_id amount
      ≠ .error (.recordNotFoundError msg) := by
  have he : process_payment s now billing_id amount
      = .error (.billingError "Billing record not found.") := by
    unfold process_payment
    rw [h]
  refine ⟨he, ?_⟩
  intro msg hc
  rw [he] at hc
  exact HError.noConfusion (Except.error.inj hc)

/-- Witness for C10: a payment against the unknown billing id `b9`. -/
theorem c10_missing_billing_error_kind_witness :
    process_payment demo1 0 "b9" 5
      = .error (.billingError "Billing record not found.") ∧
    ∀ msg, process_payment demo1 0 "b9" 5
      ≠ .error (.recordNotFoundError msg) :=
  c10_missing_billing_error_kind (by rfl)

/-- Claim C5: while a patient id is not in a doctor's treated-patient set,
`access_medical_records` by that doctor fails `Unauthorized`; after a
successful `schedule_appointment` assigns the doctor, the same call succeeds
and returns the patient's medical history. -/
theorem c5_doctor_record_access :
    (∀ (s : HealthcareSystem) (d : DoctorData) (patient_id : String),
      patient_id ∉ d.patients →
      access_medical_records s (.doctor d) patient_id
        = .error (.authorizationError "Doctor not assigned to this patient.")) ∧
    (∀ (s s1 : HealthcareSystem) (pid did : String) (t : Int) (aid : String)
      (a : Appointment) (d1 : DoctorData),
      schedule_appointment s pid did t aid = .ok (s1, a) →
      dictGet s1.users did = some (.doctor d1) →
      ∃ p1, dictGet s1.users pid = some (.patient p1) ∧
        access_medical_records s1 (.doctor d1) pid
          = .ok (p1.medical_history.filterMap (dictGet s1.medical_records))) := by
  constructor
  · intro s d patient_id hnot
    unfold access_medical_records
    dsimp only
    rw [if_neg hnot]
  · intro s s1 pid did t aid a d1 h hd1
    obtain ⟨p, d, hp, hd, hscan, ha, hs1⟩ := schedule_appointment_ok h
    have hpd : pid ≠ did := by
      intro he
      rw [he, hd] at hp
      exact absurd (Option.some.inj hp) (by simp)
    subst hs1
    have hplook : dictGet
        (dictSet (dictSet s.users did (User.doctor { d with appointments := d.appointments ++ [aid], patients := setAdd d.patients pid })) pid (User.patient { p with appointments := p.appointments ++ [aid] }))
        pid
        = some (User.patient { p with appointments := p.appointments ++ [aid] }) :=
      dictGet_dictSet_self _ _ _
    have hdlook : dictGet
        (dictSet (dictSet s.users did (User.doctor { d with appointments := d.appointments ++ [aid], patients := setAdd d.patients pid })) pid (User.patient { p with appointments := p.appointments ++ [aid] }))
        did
        = some (User.doctor { d with appointments := d.appointments ++ [aid], patients := setAdd d.patients pid }) := by
      rw [dictGet_dictSet_ne _ _ (fun he => hpd he.symm), dictGet_dictSet_self]
    have hd1e : d1 = { d with appointments := d.appointments ++ [aid], patients := setAdd d.patients pid } := by
      dsimp only at hd1
      rw [hdlook] at hd1
      injection Option.some.inj hd1.symm
    refine ⟨{ p with appointments := p.appointments ++ [aid] }, hplook, ?_⟩
    unfold access_medical_records
    dsimp only
    have hmem : pid ∈ d1.patients := by
      rw [hd1e]
      exact setAdd_mem_self d.patients pid
    rw [if_pos hmem]
    unfold get_medical_records
    dsimp only at hplook ⊢
    rw [hplook]

/-- Witness for C5: in `demo2` the doctor treats nobody, so access is
refused; in `demo3` (after scheduling) access returns the patient's (empty)
history. -/
theorem c5_doctor_record_access_witness :
    access_medical_records demo2 (.doctor (doctorOf demo2 "d1")) "p1"
      = .error (.authorizationError "Doctor not assigned to this patient.") ∧
    ∃ p1, dictGet demo3.users "p1" = some (.patient p1) ∧
      access_medical_records demo3 (.doctor (doctorOf demo3 "d1")) "p1"
        = .ok (p1.medical_history.filterMap (dictGet demo3.medical_records)) :=
  ⟨c5_doctor_record_access.1 demo2 (doctorOf demo2 "d1") "p1" (by decide),
   c5_doctor_record_access.2 demo2 demo3 "p1" "d1" 10 "a1"
     { appointment_id := "a1", patient_id := "p1", doctor_id := "d1",
       date_time := 10, status := "Scheduled", notes := "" }
     (doctorOf demo3 "d1") rfl rfl⟩

/-- Claim C6: `confirm_appointment` never raises: it reports a not-found
message (state unchanged) when the id is not among the doctor's appointments
or does not resolve in the registry, reports a cannot-confirm message
(state unchanged) when the appointment is not `Scheduled`, and transitions
`Scheduled` to `Confirmed` otherwise.  Totality of the operation — it
returns a state/message pair for every input instead of an error — is
expressed by its type. -/
theorem c6_confirm_soft_policy {s : HealthcareSystem} {d : DoctorData}
    {appointment_id : String} :
    (appointment_id ∉ d.appointments →
      confirm_appointment s d appointment_id
        = (s, "Appointment " ++ appointment_id ++ " not found.")) ∧
    (dictGet s.appointments appointment_id = none →
      confirm_appointment s d appointment_id
        = (s, "Appointment " ++ appointment_id ++ " not found.")) ∧
    (∀ a, appointment_id ∈ d.appointments →
      dictGet s.appointments appointment_id = some a →
      a.status ≠ "Scheduled" →
      confirm_appointment s d appointment_id
        = (s, "Appointment " ++ appointment_id
            ++ " cannot be confirmed as it is " ++ a.status ++ ".")) ∧
    (∀ a, appointment_id ∈ d.appointments →
      dictGet s.appointments appointment_id = some a →
      a.status = "Scheduled" →
      confirm_appointment s d appointment_id
        = ({ s with appointments := dictSet s.appointments appointment_id { a with status := "Confirmed" } },
           "Appointment " ++ appointment_id ++ " has been confirmed.")) :=
  ⟨fun h => confirmLoop_not_mem h,
   fun h => confirmLoop_missing h,
   fun _ hmem hg hns => confirmLoop_wrong_state hmem hg hns,
   fun _ hmem hg hs => confirmLoop_scheduled hmem hg hs⟩

/-- Witness for C6: confirming the scheduled `a1` transitions it to
`Confirmed`; confirming the unknown id `zz` only reports not-found. -/
theorem c6_confirm_soft_policy_witness :
    confirm_appointment demo3 (doctorOf demo3 "d1") "a1"
      = (demo4, "Appointment a1 has been confirmed.") ∧
    confirm_appointment demo3 (doctorOf demo3 "d1") "zz"
      = (demo3, "Appointment zz not found.") :=
  ⟨c6_confirm_soft_policy.2.2.2
     { appointment_id := "a1", patient_id := "p1", doctor_id := "d1",
       date_time := 10, status := "Scheduled", notes := "" }
     (by decide) rfl rfl,
   c6_confirm_soft_policy.1 (by decide)⟩

/-- Claim C9: adding a prescription for a patient with no medical history
succeeds and inserts it into the global prescription index, but attaches it
to no record: the record index is unchanged, and both `get_prescriptions`
and the patient's own `view_prescriptions` aggregation return the empty
list, never containing the new prescription. -/
theorem c9_unattached_prescription {s : HealthcareSystem}
    {patient_id : String} {p : PatientData} {prescription : Prescription}
    (hp : dictGet s.users patient_id = some (.patient p))
    (hhist : p.medical_history = []) :
    ∃ s', add_prescription s patient_id prescription = .ok s' ∧
      dictGet s'.prescriptions prescription.prescription_id
        = some prescription ∧
      s'.medical_records = s.medical_records ∧
      get_prescriptions s' patient_id = .ok [] ∧
      view_prescriptions s' p = [] := by
  have hlast : p.medical_history.getLast? = none := by
    rw [hhist]
    rfl
  have hadd : add_prescription s patient_id prescription
      = .ok { s with prescriptions := dictSet s.prescriptions prescription.prescription_id prescription } := by
    unfold add_prescription
    rw [hp]
    dsimp only
    rw [hlast]
  refine ⟨_, hadd, ?_, rfl, ?_, ?_⟩
  · dsimp only
    rw [dictGet_dictSet_self]
  · unfold get_prescriptions
    dsimp only
    rw [hp]
    dsimp only
    rw [hhist]
    rfl
  · unfold view_prescriptions
    rw [hhist]
    rfl

/-- Witness for C9: a prescription for patient `p1` of `demo1`, whose
history is empty. -/
theorem c9_unattached_prescription_witness :
    ∃ s', add_prescription demo1 "p1"
        { prescription_id := "rx1", patient_id := "p1", doctor_id := "d1",
          medications := [], date_issued := 0, instructions := "rest" }
        = .ok s' ∧
      dictGet s'.prescriptions "rx1"
        = some { prescription_id := "rx1", patient_id := "p1",
                 doctor_id := "d1", medications := [], date_issued := 0,
                 instructions := "rest" } ∧
      s'.medical_records = demo1.medical_records ∧
      get_prescriptions s' "p1" = .ok [] ∧
      view_prescriptions s'
        { user_id := "p1", name := "Alice", email := "alice@example.com",
          password := hash_password "pw1", medical_history := [],
          appointments := [], billing_info := [],
          insurance_details := [("provider", "X")] } = [] :=
  c9_unattached_prescription rfl rfl
